import Mathlib

/-!
Verification of core behaviours of the smart-cctv-system repository.

The development shallowly embeds the parts of the source that the
properties below are about:

* `src/alerts/alert_manager.py` — rule evaluation with cooldown gating,
  time-of-day windows, and per-action failure isolation;
* `src/tracking/object_tracker.py` — the SORT-style tracker: per-object
  Kalman box trackers (their lifecycle counters), detection/tracker
  association with an IoU-derived cost matrix, spawning, pruning and
  emission;
* `src/capture/camera_manager.py` — the bounded per-camera frame buffer
  with non-blocking insertion and frame numbering;
* `src/main.py` — the per-frame pipeline step, restricted to its effect
  on tracker state.

Wall-clock timestamps (Python floats of seconds) are modelled as
integers; the properties below only ever compare and subtract them.
IoU-derived costs and thresholds are modelled as rationals.  The Kalman
filter numerics (`filterpy`) and the assignment solver
(`scipy.optimize.linear_sum_assignment`) are external libraries: the
predicted-box cost matrix and the solver's proposed pairs enter the
embedding as parameters, everything downstream of them is translated
from the source.
-/

namespace SmartCCTV

/-! ## Alert engine (`src/alerts/alert_manager.py`) -/

/-- One configured action of a rule (`AlertAction` dataclass).  Only the
`action_type` field is observable in the properties below; the
kind-specific parameters (message, severity, webhook url, ...) are
consumed by the external effect of the action and are elided. -/
structure AlertAction where
  actionType : String
deriving DecidableEq

/-- Outcome of the body of `AlertManager._execute_action` for one action:
the dispatched handler can report success, report failure, or raise.  The
actual effects (TTS, snapshot file, webhook POST) are external, so the
outcome is supplied by an environment function. -/
inductive ActionOutcome
  | success
  | failure
  | raised
deriving DecidableEq

/-- Result of `AlertManager._execute_action`: the `try/except` around the
dispatch turns a raised exception into a logged `False`; otherwise the
handler's boolean is returned. -/
def executeAction (env : AlertAction → ActionOutcome) (a : AlertAction) : Bool :=
  match env a with
  | .success => true
  | .failure => false
  | .raised => false

/-- The action loop of `AlertManager._trigger_alert`:
`for action in rule.actions: success = _execute_action(action, ...);
if success: triggered_actions.append(action.action_type)`.
Returns the action types executed, in order, paired with the
`triggered_actions` list of the resulting event. -/
def runActions (env : AlertAction → ActionOutcome) :
    List AlertAction → List String × List String
  | [] => ([], [])
  | a :: rest =>
    let s := executeAction env a
    let k := runActions env rest
    (a.actionType :: k.1, if s then a.actionType :: k.2 else k.2)

/-- The per-rule state touched by `AlertManager.evaluate`
(`AlertRule` dataclass restricted to the fields the evaluation loop
reads or writes).  `lastTriggered` defaults to `0.0` and is owned by the
evaluation loop. -/
structure AlertRule where
  enabled : Bool
  cooldown : ℤ
  lastTriggered : ℤ
  actions : List AlertAction
deriving DecidableEq

/-- Outcome of one pass of the `AlertManager.evaluate` loop body for a
single rule: whether the rule fired, the `triggered_actions` of the
emitted event (empty when it did not fire), and the rule state
afterwards. -/
structure EvalOutcome where
  fired : Bool
  triggeredActions : List String
  rule : AlertRule
deriving DecidableEq

/-- One iteration of the rule loop in `AlertManager.evaluate` for a single
rule at wall-clock time `now`:
`if not rule.enabled: continue`,
`if current_time - rule.last_triggered < rule.cooldown: continue`,
`if _evaluate_rule(...): _trigger_alert(...); rule.last_triggered = current_time`.
`matched` is the boolean result of `_evaluate_rule` (whether some track
matches the rule's conditions for this frame); `last_triggered` is
updated after `_trigger_alert` returns, whatever the actions did. -/
def evaluateRule (env : AlertAction → ActionOutcome) (r : AlertRule)
    (now : ℤ) (matched : Bool) : EvalOutcome :=
  if r.enabled = false then ⟨false, [], r⟩
  else if now - r.lastTriggered < r.cooldown then ⟨false, [], r⟩
  else if matched then
    ⟨true, (runActions env r.actions).2, { r with lastTriggered := now }⟩
  else ⟨false, [], r⟩

/-- Iterated calls of `AlertManager.evaluate` viewed from a single rule:
each element of the list is one evaluation (its wall-clock time and
whether `_evaluate_rule` matched).  Returns the fired flag of every
evaluation and the final rule state. -/
def evaluateRun (env : AlertAction → ActionOutcome) (r : AlertRule) :
    List (ℤ × Bool) → List Bool × AlertRule
  | [] => ([], r)
  | p :: rest =>
    let o := evaluateRule env r p.1 p.2
    let k := evaluateRun env o.rule rest
    (o.fired :: k.1, k.2)

/-- Seconds-of-day of a wall-clock time; `datetime.time` values compare
lexicographically on (hour, minute, second), which is exactly the order
of their seconds-of-day. -/
def secondsOfDay (h m s : Nat) : Nat := h * 3600 + m * 60 + s

/-- `AlertManager._is_in_time_range` for a well-formed two-element
`time_range`: the bounds are parsed from `"HH:MM"` strings with seconds
zero, and the current wall-clock time (as seconds of day) is tested
against them; `start <= end` means an ordinary interval, `start > end`
an overnight interval. -/
def isInTimeRange (startH startM endH endM : Nat) (current : Nat) : Bool :=
  let s := secondsOfDay startH startM 0
  let e := secondsOfDay endH endM 0
  if s ≤ e then decide (s ≤ current) && decide (current ≤ e)
  else decide (s ≤ current) || decide (current ≤ e)

/-- Environment in which every action raises, for exercising the
"every action failed" case of the cooldown property. -/
def envAllRaise : AlertAction → ActionOutcome := fun _ => .raised

/-- Concrete rule used to instantiate the cooldown property: enabled,
`cooldown = 60`, never triggered yet, two configured actions. -/
def ruleW : AlertRule :=
  ⟨true, 60, 0, [⟨"audio_alert"⟩, ⟨"snapshot"⟩]⟩

/-! ## Object tracker (`src/tracking/object_tracker.py`) -/

/-- A detection handed to the tracker (`Detection` consumed via duck
typing: `class_name`, `confidence`, `bbox`, `area`, `center_point`).
The center point only feeds the external Kalman filter and the external
cost matrix, so it is elided here. -/
structure Detection where
  className : String
  confidence : ℚ
  bbox : ℚ × ℚ × ℚ × ℚ
  area : ℚ
deriving DecidableEq

/-- The observable state of one `KalmanBoxTracker`: its identity and
lifecycle counters plus the detection payload it carries.  The numeric
Kalman filter state (`filterpy.kalman.KalmanFilter`) is external and
does not influence any counter. -/
structure KalmanBoxTracker where
  id : Nat
  className : String
  confidence : ℚ
  bbox : ℚ × ℚ × ℚ × ℚ
  area : ℚ
  timeSinceUpdate : Nat
  hits : Nat
  hitStreak : Nat
  age : Nat
deriving DecidableEq

/-- `KalmanBoxTracker.__init__`: the class attribute
`KalmanBoxTracker.count` — one counter shared by every tracker object,
whichever `ObjectTracker` instance or camera spawned it — is incremented
and the new value becomes the id.  The counter is threaded explicitly;
the call returns the new tracker together with the new counter value. -/
def KalmanBoxTracker.init (det : Detection) (count : Nat) :
    KalmanBoxTracker × Nat :=
  ({ id := count + 1
     className := det.className
     confidence := det.confidence
     bbox := det.bbox
     area := det.area
     timeSinceUpdate := 0
     hits := 1
     hitStreak := 1
     age := 1 }, count + 1)

/-- `KalmanBoxTracker.update`: reset `time_since_update`, increment
`hits` and `hit_streak`, feed the measurement to the (external) filter,
refresh confidence, bbox and area from the detection. -/
def KalmanBoxTracker.update (t : KalmanBoxTracker) (det : Detection) :
    KalmanBoxTracker :=
  { t with
    timeSinceUpdate := 0
    hits := t.hits + 1
    hitStreak := t.hitStreak + 1
    confidence := det.confidence
    bbox := det.bbox
    area := det.area }

/-- `KalmanBoxTracker.predict`: advance the (external) filter, increment
`age`, zero `hit_streak` if the tracker already missed an update, then
increment `time_since_update`. -/
def KalmanBoxTracker.predict (t : KalmanBoxTracker) : KalmanBoxTracker :=
  { t with
    age := t.age + 1
    hitStreak := if 0 < t.timeSinceUpdate then 0 else t.hitStreak
    timeSinceUpdate := t.timeSinceUpdate + 1 }

/-- `ObjectTracker._associate_detections_to_trackers`.  The cost matrix
entry `cm d t` stands for `1.0 - iou(detections[d].bbox, predicted box of
trackers[t])` — its value comes from the external Kalman prediction — and
`proposed` is the minimum-cost assignment returned by the external solver
`scipy.optimize.linear_sum_assignment`.  The source branches: no trackers
returns every detection unmatched; an empty cost matrix (no detections)
returns everything unmatched; otherwise the proposed pairs are filtered
by `cost_matrix[d, t] < 1.0 - self.iou_threshold`, and the unmatched
lists keep each index whose column of the (possibly empty) match array
does not contain it — the source's conditional expression
`d not in matches[:, 0] if len(matches) > 0 else True` keeps every index
when no match was accepted. -/
def associate (cm : Nat → Nat → ℚ) (proposed : List (Nat × Nat))
    (iouThreshold : ℚ) (nDets nTrks : Nat) :
    List (Nat × Nat) × List Nat × List Nat :=
  if nTrks = 0 then
    ([], List.range nDets, [])
  else if nDets = 0 then
    ([], List.range nDets, List.range nTrks)
  else
    let accepted := proposed.filter (fun p => decide (cm p.1 p.2 < 1 - iouThreshold))
    let unmatchedDets := (List.range nDets).filter (fun d =>
      if 0 < accepted.length then ! decide (d ∈ accepted.map Prod.fst) else true)
    let unmatchedTrks := (List.range nTrks).filter (fun t =>
      if 0 < accepted.length then ! decide (t ∈ accepted.map Prod.snd) else true)
    (accepted, unmatchedDets, unmatchedTrks)

/-- One iteration of the matched-update loop of `ObjectTracker.update`:
`trackers[trk_idx].update(detections[det_idx])`, an in-place update at
index `p.2` of the tracker list.  Indices come from the assignment
solver and are in range; an out-of-range pair leaves the list
unchanged. -/
def applyMatch (dets : List Detection) (p : Nat × Nat)
    (trks : List KalmanBoxTracker) : List KalmanBoxTracker :=
  match dets[p.1]?, trks[p.2]? with
  | some det, some trk => trks.set p.2 (KalmanBoxTracker.update trk det)
  | _, _ => trks

/-- The matched-update loop of `ObjectTracker.update`:
`for det_idx, trk_idx in matched: trackers[trk_idx].update(detections[det_idx])`,
pair by pair. -/
def applyMatches (dets : List Detection) :
    List (Nat × Nat) → List KalmanBoxTracker → List KalmanBoxTracker
  | [], trks => trks
  | p :: rest, trks => applyMatches dets rest (applyMatch dets p trks)

/-- The spawn loop of `ObjectTracker.update`:
`for det_idx in unmatched_dets: trackers.append(KalmanBoxTracker(detections[det_idx], ...))`,
threading the shared class-level counter.  Returns the spawned trackers
in order together with the final counter value.  Unmatched indices come
from the association step and are in range; an out-of-range index spawns
from a placeholder detection. -/
def spawnAll (dets : List Detection) :
    List Nat → Nat → List KalmanBoxTracker × Nat
  | [], count => ([], count)
  | d :: rest, count =>
    let det := dets.getD d ⟨"", 0, (0, 0, 0, 0), 0⟩
    let spawned := KalmanBoxTracker.init det count
    let k := spawnAll dets rest spawned.2
    (spawned.1 :: k.1, k.2)

/-- A track emitted by `ObjectTracker.update` (the `Track` dataclass
restricted to the fields the properties below observe; the wall-clock
derived fields `first_seen`, `last_seen`, `trajectory`, `velocity` and
the Kalman-derived `center_point` are elided). -/
structure Track where
  trackId : Nat
  className : String
  confidence : ℚ
  bbox : ℚ × ℚ × ℚ × ℚ
  area : ℚ
  hits : Nat
  hitStreak : Nat
  timeSinceUpdate : Nat
  isConfirmed : Bool
deriving DecidableEq

/-- Construction of the emitted `Track` from a live `KalmanBoxTracker`
inside `ObjectTracker.update`, in particular
`is_confirmed = tracker.hits >= self.min_hits`. -/
def mkTrack (minHits : Nat) (t : KalmanBoxTracker) : Track :=
  { trackId := t.id
    className := t.className
    confidence := t.confidence
    bbox := t.bbox
    area := t.area
    hits := t.hits
    hitStreak := t.hitStreak
    timeSinceUpdate := t.timeSinceUpdate
    isConfirmed := decide (minHits ≤ t.hits) }

/-- Tracker configuration (`processing.tracking.*` keys with their
defaults `max_age=30`, `min_hits=3`, `iou_threshold=0.3`). -/
structure TrackerCfg where
  maxAge : Nat
  minHits : Nat
  iouThreshold : ℚ

/-- Per-camera tracker state inside one `ObjectTracker` instance: the
live `KalmanBoxTracker` list `self.trackers[camera_id]` and the frame
counter `self.frame_count[camera_id]`.  The shared class-level id
counter is *not* part of this state — it is threaded separately, being
global to all instances. -/
structure CamState where
  trackers : List KalmanBoxTracker
  frameCount : Nat
deriving DecidableEq

/-- Input of one `ObjectTracker.update` call: the detections, plus the
externally computed cost matrix and solver output for this cycle (see
`associate`). -/
structure FrameInput where
  dets : List Detection
  cm : Nat → Nat → ℚ
  proposed : List (Nat × Nat)

/-- `ObjectTracker.update` for one camera: bump the frame counter,
predict every live tracker, associate detections to the predicted
trackers, update the matched ones, spawn a tracker per unmatched
detection, drop trackers with `time_since_update > max_age`, and emit a
`Track` for every remaining tracker with `hits >= min_hits` or
`hit_streak >= 1`.  The shared id counter is threaded through. -/
def ObjectTracker.updateCam (cfg : TrackerCfg) (inp : FrameInput)
    (st : CamState) (count : Nat) :
    List Track × CamState × Nat :=
  let predicted := st.trackers.map KalmanBoxTracker.predict
  let assoc := associate inp.cm inp.proposed cfg.iouThreshold
    inp.dets.length predicted.length
  let updated := applyMatches inp.dets assoc.1 predicted
  let sp := spawnAll inp.dets assoc.2.1 count
  let active := (updated ++ sp.1).filter
    (fun t => decide (t.timeSinceUpdate ≤ cfg.maxAge))
  let emitted := (active.filter
    (fun t => decide (cfg.minHits ≤ t.hits) || decide (1 ≤ t.hitStreak))).map
    (mkTrack cfg.minHits)
  (emitted, ⟨active, st.frameCount + 1⟩, sp.2)

/-- Iterated `ObjectTracker.update` calls for one camera: returns all
emitted tracks (in order of emission) and the final camera state and
counter. -/
def runTracker (cfg : TrackerCfg) :
    List FrameInput → CamState → Nat → List Track × CamState × Nat
  | [], st, count => ([], st, count)
  | inp :: rest, st, count =>
    let r := ObjectTracker.updateCam cfg inp st count
    let k := runTracker cfg rest r.2.1 r.2.2
    (r.1 ++ k.1, k.2)

/-- `SmartCCTVSystem._process_frame` (src/main.py) restricted to its
effect on one camera's tracker state: `detections = detector.detect(frame)`
followed by `if not detections: return` — on an empty detection sequence
the method returns before `tracker.update` is ever called — and otherwise
`tracks = tracker.update(detections, camera_id)`.  The remaining stages
(distance annotation, alert evaluation, event logging) do not modify
tracker state. -/
def processFrame (cfg : TrackerCfg) (inp : FrameInput)
    (st : CamState) (count : Nat) : CamState × Nat :=
  if inp.dets.isEmpty then (st, count)
  else
    let r := ObjectTracker.updateCam cfg inp st count
    (r.2.1, r.2.2)

/-- Default tracker configuration (`max_age=30`, `min_hits=3`,
`iou_threshold=0.3`). -/
def cfgDefault : TrackerCfg := ⟨30, 3, mkRat 3 10⟩

/-- Tracker configuration with `max_age = 1`, used to exhibit pruning
behaviour on concrete states. -/
def cfgMax1 : TrackerCfg := ⟨1, 3, mkRat 3 10⟩

/-- Concrete detection used in witnesses. -/
def detW : Detection := ⟨"person", mkRat 9 10, (0, 0, 10, 10), 100⟩

/-- Concrete frame input with one detection and no live trackers to
match it against (the cost matrix is never consulted in that case). -/
def inpOneDet : FrameInput := ⟨[detW], fun _ _ => 1, []⟩

/-- Concrete frame input with an empty detection list. -/
def inpEmpty : FrameInput := ⟨[], fun _ _ => 1, []⟩

/-- Concrete live tracker used in witnesses: one missed cycle so far. -/
def trkW : KalmanBoxTracker :=
  { id := 1
    className := "person"
    confidence := mkRat 9 10
    bbox := (0, 0, 10, 10)
    area := 100
    timeSinceUpdate := 1
    hits := 5
    hitStreak := 0
    age := 5 }

/-! ## Camera stream (`src/capture/camera_manager.py`) -/

/-- A captured frame, restricted to its sequence number; the payload
fields (`camera_id`, `timestamp`, `image`, `resolution`) are opaque
external data and are elided. -/
structure Frame where
  frameNumber : Nat
deriving DecidableEq

/-- `Queue(maxsize=10)` of `CameraStream.__init__`. -/
def bufferCapacity : Nat := 10

/-- State of one `CameraStream` capture loop: the frame buffer (front =
oldest) and `self.frame_number`. -/
structure CameraStreamState where
  frameQueue : List Frame
  frameNumber : Nat
deriving DecidableEq

/-- Observable events of one `CameraStream`: a successful `cap.read()`
iteration of `_capture_loop`, a failed read (the reconnect path touches
neither the buffer nor the frame number), and a `get_frame()` call by
the consumer. -/
inductive CaptureEvent
  | readOk
  | readFail
  | getFrame

/-- One transition of the camera stream.  On a successful read the loop
builds `Frame(..., frame_number=self.frame_number)` and calls
`frame_queue.put(frame, block=False)`: if the queue holds fewer than 10
frames the frame is appended and `self.frame_number += 1`; a full queue
raises `queue.Full`, which is caught and the frame silently dropped —
the producer does not block and the frame number is not consumed.
`get_frame()` pops the oldest frame when the queue is nonempty. -/
def streamStep (st : CameraStreamState) : CaptureEvent → CameraStreamState
  | .readOk =>
    if st.frameQueue.length < bufferCapacity then
      { frameQueue := st.frameQueue ++ [⟨st.frameNumber⟩]
        frameNumber := st.frameNumber + 1 }
    else st
  | .readFail => st
  | .getFrame => { st with frameQueue := st.frameQueue.drop 1 }

/-- Initial state of a camera stream: empty buffer, frame number 0. -/
def initStream : CameraStreamState := ⟨[], 0⟩

/-- Run a camera stream from a given state through a sequence of
events. -/
def runStreamFrom (st : CameraStreamState) (evs : List CaptureEvent) :
    CameraStreamState :=
  evs.foldl streamStep st

/-- Run a camera stream from its initial state. -/
def runStream (evs : List CaptureEvent) : CameraStreamState :=
  runStreamFrom initStream evs

/-- Concrete full camera buffer (10 frames) used in witnesses. -/
def fullQueueW : List Frame := (List.range 10).map Frame.mk

/-- The buffered frames carry the consecutive block of sequence numbers
ending just below the next frame number, in buffer order. -/
def queueConsecutive (st : CameraStreamState) : Prop :=
  ∃ k, k ≤ st.frameNumber ∧
    st.frameQueue.map Frame.frameNumber =
      List.range' k (st.frameNumber - k)

/-! ## Alert engine: cooldown, action isolation, time windows -/

/-- A rule inside its cooldown window is skipped unchanged, whatever the
environment and whether any track matched. -/
theorem evaluateRule_in_cooldown (env : AlertAction → ActionOutcome)
    (r : AlertRule) (t : ℤ) (m : Bool)
    (h : t - r.lastTriggered < r.cooldown) :
    evaluateRule env r t m = ⟨false, [], r⟩ := by
  unfold evaluateRule
  by_cases he : r.enabled = false
  · simp [he]
  · simp [he, h]

/-- An enabled rule outside its cooldown window with a matching track
fires: the triggered-action list is whatever the actions produced, and
`last_triggered` becomes the evaluation time, however the actions
fared. -/
theorem evaluateRule_fires (env : AlertAction → ActionOutcome)
    (r : AlertRule) (t : ℤ)
    (hen : r.enabled = true) (helig : r.cooldown ≤ t - r.lastTriggered) :
    evaluateRule env r t true =
      ⟨true, (runActions env r.actions).2, { r with lastTriggered := t }⟩ := by
  unfold evaluateRule
  simp [hen, not_lt.mpr helig]

/-- A sequence of evaluations all falling inside the rule's cooldown
window fires nothing and leaves the rule state untouched. -/
theorem evaluateRun_no_fire (env : AlertAction → ActionOutcome)
    (r : AlertRule) (evs : List (ℤ × Bool))
    (h : ∀ p ∈ evs, p.1 - r.lastTriggered < r.cooldown) :
    evaluateRun env r evs = (evs.map (fun _ => false), r) := by
  induction evs with
  | nil => rfl
  | cons p rest ih =>
    simp only [evaluateRun,
      evaluateRule_in_cooldown env r p.1 p.2 (h p (List.mem_cons_self p rest)),
      ih (fun q hq => h q (List.mem_cons_of_mem p hq)), List.map_cons]

/-- Claim C1: a rule that fires at `t0` has `last_triggered` set to `t0`
even when every action failed (here both environments are arbitrary, the
witness instantiates one where every action raises); no evaluation at a
time `t` with `t - t0 < cooldown` fires it again, however many tracks
match in that interval; and an evaluation at a time `t1` with
`t1 - t0 ≥ cooldown` and a matching track fires it again. -/
theorem alert_cooldown_window (envA envB : AlertAction → ActionOutcome)
    (r : AlertRule) (t0 t1 : ℤ) (evs : List (ℤ × Bool))
    (hen : r.enabled = true)
    (helig : r.cooldown ≤ t0 - r.lastTriggered)
    (hwin : ∀ p ∈ evs, p.1 - t0 < r.cooldown)
    (hlate : r.cooldown ≤ t1 - t0) :
    (evaluateRule envA r t0 true).fired = true ∧
    (evaluateRule envA r t0 true).rule.lastTriggered = t0 ∧
    (evaluateRun envB (evaluateRule envA r t0 true).rule evs).1 =
      evs.map (fun _ => false) ∧
    (evaluateRule envB
      (evaluateRun envB (evaluateRule envA r t0 true).rule evs).2
      t1 true).fired = true := by
  have h1 := evaluateRule_fires envA r t0 hen helig
  rw [h1]
  have h2 : evaluateRun envB { r with lastTriggered := t0 } evs =
      (evs.map (fun _ => false), { r with lastTriggered := t0 }) :=
    evaluateRun_no_fire envB _ evs (fun p hp => hwin p hp)
  refine ⟨rfl, rfl, ?_, ?_⟩
  · rw [h2]
  · rw [h2]
    show (evaluateRule envB { r with lastTriggered := t0 } t1 true).fired = true
    rw [evaluateRule_fires envB { r with lastTriggered := t0 } t1 hen hlate]

/-- Witness for `alert_cooldown_window`: `ruleW` (cooldown 60, never yet
triggered) fires at time 100 in an environment where every action
raises, does not re-fire at 130 or 159, and fires again at 161. -/
theorem alert_cooldown_window_witness :
    ruleW.enabled = true ∧
    ruleW.cooldown ≤ 100 - ruleW.lastTriggered ∧
    (∀ p ∈ [((130 : ℤ), true), ((159 : ℤ), true)],
      p.1 - 100 < ruleW.cooldown) ∧
    ruleW.cooldown ≤ 161 - 100 ∧
    ((evaluateRule envAllRaise ruleW 100 true).fired = true ∧
     (evaluateRule envAllRaise ruleW 100 true).rule.lastTriggered = 100 ∧
     (evaluateRun envAllRaise (evaluateRule envAllRaise ruleW 100 true).rule
        [((130 : ℤ), true), ((159 : ℤ), true)]).1 =
       List.map (fun _ => false) [((130 : ℤ), true), ((159 : ℤ), true)] ∧
     (evaluateRule envAllRaise
        (evaluateRun envAllRaise (evaluateRule envAllRaise ruleW 100 true).rule
          [((130 : ℤ), true), ((159 : ℤ), true)]).2
        161 true).fired = true) :=
  ⟨rfl, by decide, by decide, by decide,
   alert_cooldown_window envAllRaise envAllRaise ruleW 100 161
     [((130 : ℤ), true), ((159 : ℤ), true)]
     rfl (by decide) (by decide) (by decide)⟩

/-- Claim C8: when a rule fires, the action loop executes every
configured action in listed order (the first component is the full
ordered list of executed action types), and the event's
`triggered_actions` are exactly the successful ones in that order — a
failing or raising action is excluded from the success list but does not
stop any later action from executing. -/
theorem action_failures_isolated (env : AlertAction → ActionOutcome)
    (acts : List AlertAction) :
    runActions env acts =
      (acts.map AlertAction.actionType,
       (acts.filter (fun a => executeAction env a)).map
         AlertAction.actionType) := by
  induction acts with
  | nil => rfl
  | cons a rest ih =>
    simp only [runActions, ih, List.map_cons, List.filter_cons]
    cases h : executeAction env a <;> simp [h]

/-- Claim C9: a configured time window whose start is after its end wraps
past midnight — the current time matches exactly when it is at or after
the start or at or before the end. -/
theorem time_window_wraparound (startH startM endH endM current : Nat)
    (hwrap : secondsOfDay endH endM 0 < secondsOfDay startH startM 0) :
    isInTimeRange startH startM endH endM current = true ↔
      (secondsOfDay startH startM 0 ≤ current ∨
       current ≤ secondsOfDay endH endM 0) := by
  unfold isInTimeRange
  rw [if_neg (by omega)]
  simp

/-- Witness for `time_window_wraparound`: the window [22:00, 06:00]
matches 23:00 and 02:00 and does not match 12:00. -/
theorem time_window_wraparound_witness :
    secondsOfDay 6 0 0 < secondsOfDay 22 0 0 ∧
    isInTimeRange 22 0 6 0 (secondsOfDay 23 0 0) = true ∧
    isInTimeRange 22 0 6 0 (secondsOfDay 2 0 0) = true ∧
    isInTimeRange 22 0 6 0 (secondsOfDay 12 0 0) = false :=
  ⟨by decide,
   (time_window_wraparound 22 0 6 0 (secondsOfDay 23 0 0) (by decide)).mpr
     (Or.inl (by decide)),
   (time_window_wraparound 22 0 6 0 (secondsOfDay 2 0 0) (by decide)).mpr
     (Or.inr (by decide)),
   by decide⟩

/-! ## Object tracker: lifecycle counters, identifiers, association -/

/-- Every tracker in the list after one matched-update step descends from
a tracker of the input list with the same id and no fewer hits. -/
theorem applyMatch_provenance (dets : List Detection) (p : Nat × Nat)
    (trks : List KalmanBoxTracker) :
    ∀ u ∈ applyMatch dets p trks, ∃ t ∈ trks, u.id = t.id ∧ t.hits ≤ u.hits := by
  intro u hu
  unfold applyMatch at hu
  split at hu
  case _ det trk hdet htrk =>
    rcases List.mem_or_eq_of_mem_set hu with h | h
    · exact ⟨u, h, rfl, le_refl _⟩
    · subst h
      exact ⟨trk, List.getElem?_mem htrk, rfl, Nat.le_succ _⟩
  case _ =>
    exact ⟨u, hu, rfl, le_refl _⟩

/-- Every tracker in the list after the whole matched-update loop
descends from a tracker of the input list with the same id and no fewer
hits. -/
theorem applyMatches_provenance (dets : List Detection)
    (ms : List (Nat × Nat)) (trks : List KalmanBoxTracker) :
    ∀ u ∈ applyMatches dets ms trks,
      ∃ t ∈ trks, u.id = t.id ∧ t.hits ≤ u.hits := by
  induction ms generalizing trks with
  | nil => intro u hu; exact ⟨u, hu, rfl, le_refl _⟩
  | cons p rest ih =>
    intro u hu
    obtain ⟨v, hv, hid, hh⟩ := ih (applyMatch dets p trks) u hu
    obtain ⟨t, ht, hid2, hh2⟩ := applyMatch_provenance dets p trks v hv
    exact ⟨t, ht, hid.trans hid2, le_trans hh2 hh⟩

/-- The spawn loop returns the counter advanced by the number of spawned
trackers. -/
theorem spawnAll_count (dets : List Detection) (u : List Nat) (c : Nat) :
    (spawnAll dets u c).2 = c + u.length := by
  induction u generalizing c with
  | nil => rfl
  | cons d rest ih =>
    simp only [spawnAll, KalmanBoxTracker.init, ih, List.length_cons]
    omega

/-- The ids handed out by the spawn loop are the consecutive block just
above the incoming counter value. -/
theorem spawnAll_ids (dets : List Detection) (u : List Nat) (c : Nat) :
    (spawnAll dets u c).1.map KalmanBoxTracker.id =
      List.range' (c + 1) u.length := by
  induction u generalizing c with
  | nil => rfl
  | cons d rest ih =>
    simp only [spawnAll, List.map_cons, ih, List.length_cons,
      List.range'_succ]
    rfl

/-- Every spawned tracker starts with a single hit. -/
theorem spawnAll_hits (dets : List Detection) (u : List Nat) (c : Nat) :
    ∀ t ∈ (spawnAll dets u c).1, t.hits = 1 := by
  induction u generalizing c with
  | nil => intro t ht; cases ht
  | cons d rest ih =>
    intro t ht
    rcases List.mem_cons.mp ht with h | h
    · subst h; rfl
    · exact ih _ t h

/-- Every spawned tracker's id lies strictly above the incoming counter
and at most at the outgoing counter. -/
theorem spawnAll_id_bounds (dets : List Detection) (u : List Nat) (c : Nat) :
    ∀ t ∈ (spawnAll dets u c).1,
      c < t.id ∧ t.id ≤ (spawnAll dets u c).2 := by
  intro t ht
  have hm : t.id ∈ (spawnAll dets u c).1.map KalmanBoxTracker.id :=
    List.mem_map_of_mem _ ht
  rw [spawnAll_ids] at hm
  rw [List.mem_range'_1] at hm
  rw [spawnAll_count]
  omega

/-- Every tracker alive after one `ObjectTracker.update` cycle either
descends from a tracker alive before the cycle — same id, no fewer hits —
or was freshly spawned in the cycle with a single hit and an id strictly
above the incoming shared counter and at most the outgoing one. -/
theorem updateCam_provenance (cfg : TrackerCfg) (inp : FrameInput)
    (st : CamState) (count : Nat) :
    ∀ u ∈ (ObjectTracker.updateCam cfg inp st count).2.1.trackers,
      (∃ t ∈ st.trackers, u.id = t.id ∧ t.hits ≤ u.hits) ∨
      (u.hits = 1 ∧ count < u.id ∧
        u.id ≤ (ObjectTracker.updateCam cfg inp st count).2.2) := by
  intro u hu
  simp only [ObjectTracker.updateCam] at hu ⊢
  have hu2 := List.mem_of_mem_filter hu
  rcases List.mem_append.mp hu2 with h | h
  · obtain ⟨v, hv, hid, hh⟩ := applyMatches_provenance _ _ _ u h
    obtain ⟨t0, ht0, rfl⟩ := List.mem_map.mp hv
    exact Or.inl ⟨t0, ht0, hid, hh⟩
  · refine Or.inr ⟨spawnAll_hits _ _ _ u h, ?_, ?_⟩
    · exact (spawnAll_id_bounds _ _ _ u h).1
    · exact (spawnAll_id_bounds _ _ _ u h).2

/-- One `ObjectTracker.update` cycle never decreases the shared counter
and keeps every live id at or below it. -/
theorem updateCam_counter_inv (cfg : TrackerCfg) (inp : FrameInput)
    (st : CamState) (count : Nat)
    (hinv : ∀ t ∈ st.trackers, t.id ≤ count) :
    count ≤ (ObjectTracker.updateCam cfg inp st count).2.2 ∧
    (∀ u ∈ (ObjectTracker.updateCam cfg inp st count).2.1.trackers,
      u.id ≤ (ObjectTracker.updateCam cfg inp st count).2.2) := by
  constructor
  · show count ≤ (spawnAll _ _ count).2
    rw [spawnAll_count]
    omega
  · intro u hu
    rcases updateCam_provenance cfg inp st count u hu with ⟨t, ht, hid, _⟩ | h
    · have h1 := hinv t ht
      have h2 : count ≤ (ObjectTracker.updateCam cfg inp st count).2.2 := by
        show count ≤ (spawnAll _ _ count).2
        rw [spawnAll_count]
        omega
      omega
    · exact h.2.2

/-- Every track emitted by one `ObjectTracker.update` cycle carries
`is_confirmed = (hits >= min_hits)`. -/
theorem updateCam_confirmed (cfg : TrackerCfg) (inp : FrameInput)
    (st : CamState) (count : Nat) :
    ∀ tr ∈ (ObjectTracker.updateCam cfg inp st count).1,
      (tr.isConfirmed = true ↔ cfg.minHits ≤ tr.hits) := by
  intro tr htr
  simp only [ObjectTracker.updateCam] at htr
  obtain ⟨t, _, rfl⟩ := List.mem_map.mp htr
  simp [mkTrack]

/-- Emitted-track confirmation flags across a whole run. -/
theorem runTracker_confirmed (cfg : TrackerCfg) :
    ∀ (inps : List FrameInput) (st : CamState) (count : Nat),
      ∀ tr ∈ (runTracker cfg inps st count).1,
        (tr.isConfirmed = true ↔ cfg.minHits ≤ tr.hits) := by
  intro inps
  induction inps with
  | nil => intro st count tr htr; cases htr
  | cons inp rest ih =>
    intro st count tr htr
    rcases List.mem_append.mp htr with h | h
    · exact updateCam_confirmed cfg inp st count tr h
    · exact ih _ _ tr h

/-- Hit counts keyed by a live id only grow across a run, provided the
shared counter dominates every live id (which every real execution
maintains). -/
theorem runTracker_persist (cfg : TrackerCfg) (i h0 : Nat) :
    ∀ (inps : List FrameInput) (st : CamState) (count : Nat),
      (∀ t ∈ st.trackers, t.id ≤ count) → i ≤ count →
      (∀ t ∈ st.trackers, t.id = i → h0 ≤ t.hits) →
      ∀ u ∈ (runTracker cfg inps st count).2.1.trackers,
        u.id = i → h0 ≤ u.hits := by
  intro inps
  induction inps with
  | nil => intro st count _ _ hh u hu hui; exact hh u hu hui
  | cons inp rest ih =>
    intro st count hinv hi hh u hu hui
    have hstep := updateCam_counter_inv cfg inp st count hinv
    refine ih _ _ hstep.2 (le_trans hi hstep.1) ?_ u hu hui
    intro t ht hti
    rcases updateCam_provenance cfg inp st count t ht with ⟨t0, ht0, hid, hhits⟩ | hnew
    · exact le_trans (hh t0 ht0 (by omega)) hhits
    · have := hnew.2.1
      omega

/-- Claim C2: across any sequence of `ObjectTracker.update` calls, every
emitted track has `is_confirmed` set exactly when its cumulative hits
reach `min_hits`; and since an existing tracker's hits never decrease
from cycle to cycle, a tracker whose hits once reached a bound (e.g.
`min_hits`) still satisfies it whenever it is still alive later — a
confirmed track stays confirmed until it is pruned. -/
theorem track_confirmed_iff_min_hits (cfg : TrackerCfg)
    (inps : List FrameInput) (st : CamState) (count i h0 : Nat)
    (hinv : ∀ t ∈ st.trackers, t.id ≤ count)
    (hi : i ≤ count)
    (hh : ∀ t ∈ st.trackers, t.id = i → h0 ≤ t.hits) :
    (∀ tr ∈ (runTracker cfg inps st count).1,
      (tr.isConfirmed = true ↔ cfg.minHits ≤ tr.hits)) ∧
    (∀ u ∈ (runTracker cfg inps st count).2.1.trackers,
      u.id = i → h0 ≤ u.hits) :=
  ⟨runTracker_confirmed cfg inps st count,
   runTracker_persist cfg i h0 inps st count hinv hi hh⟩

/-- Witness for `track_confirmed_iff_min_hits`: one live tracker with 5
hits (id 1, counter 1), run for one further cycle without detections. -/
theorem track_confirmed_iff_min_hits_witness :
    (∀ t ∈ ([trkW] : List KalmanBoxTracker), t.id ≤ 1) ∧
    (1 : Nat) ≤ 1 ∧
    (∀ t ∈ ([trkW] : List KalmanBoxTracker), t.id = 1 → 5 ≤ t.hits) ∧
    ((∀ tr ∈ (runTracker cfgDefault [inpEmpty] ⟨[trkW], 3⟩ 1).1,
        (tr.isConfirmed = true ↔ cfgDefault.minHits ≤ tr.hits)) ∧
     (∀ u ∈ (runTracker cfgDefault [inpEmpty] ⟨[trkW], 3⟩ 1).2.1.trackers,
        u.id = 1 → 5 ≤ u.hits)) :=
  ⟨by decide, by decide, by decide,
   track_confirmed_iff_min_hits cfgDefault [inpEmpty] ⟨[trkW], 3⟩ 1 1 5
     (by decide) (by decide) (by decide)⟩

/-- In the branch with trackers and detections both present, the
association step filters the proposed pairs by the strict cost test and
keeps an index unmatched when the accepted pairs (if any) do not contain
it. -/
theorem associate_main (cm : Nat → Nat → ℚ) (proposed : List (Nat × Nat))
    (thr : ℚ) (nD nT : Nat) (hD : nD ≠ 0) (hT : nT ≠ 0) :
    associate cm proposed thr nD nT =
      (proposed.filter (fun q => decide (cm q.1 q.2 < 1 - thr)),
       (List.range nD).filter (fun d =>
         if 0 < (proposed.filter
             (fun q => decide (cm q.1 q.2 < 1 - thr))).length
         then ! decide (d ∈ (proposed.filter
             (fun q => decide (cm q.1 q.2 < 1 - thr))).map Prod.fst)
         else true),
       (List.range nT).filter (fun t =>
         if 0 < (proposed.filter
             (fun q => decide (cm q.1 q.2 < 1 - thr))).length
         then ! decide (t ∈ (proposed.filter
             (fun q => decide (cm q.1 q.2 < 1 - thr))).map Prod.snd)
         else true)) := by
  unfold associate
  rw [if_neg hT, if_neg hD]

/-- Claim C3 counterexample: with `iou_threshold = 0`, a proposed pair of
cost exactly `1 = 1 − iou_threshold` (IoU exactly at the threshold) has a
cost that does not exceed `1 − iou_threshold`, so the claim accepts it;
the source filter `cost_matrix[d, t] < 1.0 - self.iou_threshold` is
strict and rejects it, leaving detection 0 and tracker 0 unmatched. -/
theorem assoc_threshold_boundary_cex :
    ¬ ((1 : ℚ) > 1 - 0) ∧
    associate (fun _ _ => (1 : ℚ)) [(0, 0)] 0 1 1 = ([], [0], [0]) := by
  constructor
  · simp
  · simp [associate, List.filter]

/-- Claim C3 amended: a proposed pair is accepted exactly when its cost
is strictly below `1 − iou_threshold` (equivalently, its IoU is strictly
above the configured threshold; a pair at cost exactly
`1 − iou_threshold` is rejected), and every rejected pair leaves both
its detection and its tracker unmatched — using that the solver proposes
each detection and each tracker at most once. -/
theorem assoc_reject_strict (cm : Nat → Nat → ℚ)
    (proposed : List (Nat × Nat)) (thr : ℚ) (nD nT : Nat) (p : Nat × Nat)
    (hD : 0 < nD) (hT : 0 < nT)
    (hinj : proposed.Pairwise (fun a b => a.1 ≠ b.1 ∧ a.2 ≠ b.2))
    (hmem : p ∈ proposed) (hd : p.1 < nD) (ht : p.2 < nT)
    (hrej : ¬ cm p.1 p.2 < 1 - thr) :
    (associate cm proposed thr nD nT).1 =
      proposed.filter (fun q => decide (cm q.1 q.2 < 1 - thr)) ∧
    p ∉ (associate cm proposed thr nD nT).1 ∧
    p.1 ∈ (associate cm proposed thr nD nT).2.1 ∧
    p.2 ∈ (associate cm proposed thr nD nT).2.2 := by
  have hsym : Symmetric (fun (a b : Nat × Nat) => a.1 ≠ b.1 ∧ a.2 ≠ b.2) :=
    fun a b hab => ⟨fun h => hab.1 h.symm, fun h => hab.2 h.symm⟩
  have hsep : ∀ q ∈ proposed.filter
      (fun q => decide (cm q.1 q.2 < 1 - thr)), q.1 ≠ p.1 ∧ q.2 ≠ p.2 := by
    intro q hq
    have hq1 := List.mem_of_mem_filter hq
    have hq2 : decide (cm q.1 q.2 < 1 - thr) = true :=
      (List.mem_filter.mp hq).2
    have hqp : q ≠ p := by
      intro h
      subst h
      exact hrej (of_decide_eq_true hq2)
    exact hinj.forall hsym hq1 hmem hqp
  rw [associate_main cm proposed thr nD nT (by omega) (by omega)]
  refine ⟨rfl, ?_, ?_, ?_⟩
  · intro hp
    exact hrej (of_decide_eq_true (List.mem_filter.mp hp).2)
  · apply List.mem_filter.mpr
    refine ⟨List.mem_range.mpr hd, ?_⟩
    by_cases hlen : 0 < (proposed.filter
        (fun q => decide (cm q.1 q.2 < 1 - thr))).length
    · rw [if_pos hlen]
      simp only [Bool.not_eq_true', decide_eq_false_iff_not]
      intro hmm
      obtain ⟨q, hq, hq1⟩ := List.mem_map.mp hmm
      exact (hsep q hq).1 hq1
    · rw [if_neg hlen]
  · apply List.mem_filter.mpr
    refine ⟨List.mem_range.mpr ht, ?_⟩
    by_cases hlen : 0 < (proposed.filter
        (fun q => decide (cm q.1 q.2 < 1 - thr))).length
    · rw [if_pos hlen]
      simp only [Bool.not_eq_true', decide_eq_false_iff_not]
      intro hmm
      obtain ⟨q, hq, hq1⟩ := List.mem_map.mp hmm
      exact (hsep q hq).2 hq1
    · rw [if_neg hlen]

/-- Witness for `assoc_reject_strict`: two proposed pairs, the first at
cost 1 (IoU 0, rejected with threshold 0), the second at cost 0
(accepted); the rejected pair's detection 0 and tracker 0 both come back
unmatched. -/
theorem assoc_reject_strict_witness :
    (0 : Nat) < 2 ∧
    (([((0 : Nat), (0 : Nat)), (1, 1)]).Pairwise
      (fun a b => a.1 ≠ b.1 ∧ a.2 ≠ b.2)) ∧
    ((0 : Nat), (0 : Nat)) ∈ [((0 : Nat), (0 : Nat)), (1, 1)] ∧
    ¬ ((fun d _ => if d = 0 then (1 : ℚ) else 0) 0 0 < 1 - 0) ∧
    (((associate (fun d _ => if d = 0 then (1 : ℚ) else 0)
        [(0, 0), (1, 1)] 0 2 2)).1 =
      ([((0 : Nat), (0 : Nat)), (1, 1)]).filter
        (fun q => decide ((fun d _ => if d = 0 then (1 : ℚ) else 0)
          q.1 q.2 < 1 - 0)) ∧
     ((0 : Nat), (0 : Nat)) ∉ (associate
        (fun d _ => if d = 0 then (1 : ℚ) else 0) [(0, 0), (1, 1)] 0 2 2).1 ∧
     (0 : Nat) ∈ (associate (fun d _ => if d = 0 then (1 : ℚ) else 0)
        [(0, 0), (1, 1)] 0 2 2).2.1 ∧
     (0 : Nat) ∈ (associate (fun d _ => if d = 0 then (1 : ℚ) else 0)
        [(0, 0), (1, 1)] 0 2 2).2.2) :=
  ⟨by decide, by decide, by decide, by simp,
   assoc_reject_strict (fun d _ => if d = 0 then (1 : ℚ) else 0)
     [(0, 0), (1, 1)] 0 2 2 (0, 0)
     (by decide) (by decide) (by decide) (by decide) (by decide) (by decide)
     (by simp)⟩

/-- Claim C4 counterexample: the id allocator is the class attribute
`KalmanBoxTracker.count`, shared by every tracker object across all
`ObjectTracker` instances and cameras.  A freshly created tracker
instance with no history of its own receives id 1 for its first track
when the shared counter is 0, but id 2 when another instance (or
camera) spawned one track first — the allocated ids are not a function
of the instance's own history, so per-camera id spaces are not
independent. -/
theorem track_id_shared_counter_cex :
    ((ObjectTracker.updateCam cfgDefault inpOneDet ⟨[], 0⟩ 0).2.1.trackers.map
      KalmanBoxTracker.id = [1]) ∧
    ((ObjectTracker.updateCam cfgDefault inpOneDet ⟨[], 0⟩
        (ObjectTracker.updateCam cfgDefault inpOneDet ⟨[], 0⟩ 0).2.2).2.1.trackers.map
      KalmanBoxTracker.id = [2]) ∧
    ¬ ((ObjectTracker.updateCam cfgDefault inpOneDet ⟨[], 0⟩
        (ObjectTracker.updateCam cfgDefault inpOneDet ⟨[], 0⟩ 0).2.2).2.1.trackers.map
      KalmanBoxTracker.id =
      (ObjectTracker.updateCam cfgDefault inpOneDet ⟨[], 0⟩ 0).2.1.trackers.map
      KalmanBoxTracker.id) := by
  decide

/-- Claim C4 amended: identifiers are allocated by a strictly increasing
counter and never reused — every id spawned in a cycle strictly exceeds
the counter's prior value and therefore every id previously allocated
anywhere under it, and the ids of one spawn loop are strictly
increasing — but the counter is the class-level `KalmanBoxTracker.count`
shared by all tracker instances and cameras, so the id spaces of
different cameras are disjoint segments of one global sequence rather
than independent per-instance sequences. -/
theorem track_ids_strictly_increasing (dets : List Detection)
    (u : List Nat) (c : Nat) (existing : List KalmanBoxTracker)
    (hprev : ∀ t ∈ existing, t.id ≤ c) :
    (spawnAll dets u c).2 = c + u.length ∧
    (spawnAll dets u c).1.map KalmanBoxTracker.id =
      List.range' (c + 1) u.length ∧
    ((spawnAll dets u c).1.map KalmanBoxTracker.id).Pairwise (· < ·) ∧
    (∀ t' ∈ (spawnAll dets u c).1, ∀ t ∈ existing, t.id < t'.id) := by
  refine ⟨spawnAll_count dets u c, spawnAll_ids dets u c, ?_, ?_⟩
  · rw [spawnAll_ids]
    exact List.pairwise_lt_range' _ _
  · intro t' ht' t ht
    have h1 := (spawnAll_id_bounds dets u c t' ht').1
    have h2 := hprev t ht
    omega

/-- Witness for `track_ids_strictly_increasing`: spawning two detections
at shared counter 5 over an existing tracker with id 1. -/
theorem track_ids_strictly_increasing_witness :
    (∀ t ∈ ([trkW] : List KalmanBoxTracker), t.id ≤ 5) ∧
    ((spawnAll [detW, detW] [0, 1] 5).2 = 5 + 2 ∧
     (spawnAll [detW, detW] [0, 1] 5).1.map KalmanBoxTracker.id =
       List.range' 6 2 ∧
     ((spawnAll [detW, detW] [0, 1] 5).1.map KalmanBoxTracker.id).Pairwise
       (· < ·) ∧
     (∀ t' ∈ (spawnAll [detW, detW] [0, 1] 5).1,
       ∀ t ∈ ([trkW] : List KalmanBoxTracker), t.id < t'.id)) :=
  ⟨by decide,
   by
    have h := track_ids_strictly_increasing [detW, detW] [0, 1] 5 [trkW]
      (by decide)
    simpa using h⟩

/-- Claim C5 counterexample: on a frame whose detector output is empty,
`_process_frame` returns before calling `tracker.update`, so the tracker
state is byte-for-byte unchanged — the live tracker keeps
`time_since_update = 1` — whereas the claimed predict/associate/prune
cycle (here with `max_age = 1`) would have incremented it to 2 and
pruned the track. -/
theorem empty_detections_skip_cex :
    processFrame cfgMax1 inpEmpty ⟨[trkW], 3⟩ 1 = (⟨[trkW], 3⟩, 1) ∧
    (ObjectTracker.updateCam cfgMax1 inpEmpty ⟨[trkW], 3⟩ 1).2.1.trackers = [] ∧
    ¬ ((processFrame cfgMax1 inpEmpty ⟨[trkW], 3⟩ 1).1 =
      (ObjectTracker.updateCam cfgMax1 inpEmpty ⟨[trkW], 3⟩ 1).2.1) := by
  decide

/-- Claim C5 amended: a frame with an empty detection sequence makes
`_process_frame` return early, leaving the camera's tracker state (and
the shared counter) unchanged — no `time_since_update` is incremented
and nothing is pruned on that frame; the predict/prune cycle, which on
an empty detection list would advance every live tracker and drop those
beyond `max_age`, runs only on frames with at least one detection. -/
theorem empty_detections_no_cycle (cfg : TrackerCfg) (inp : FrameInput)
    (st : CamState) (count : Nat) (h : inp.dets = []) :
    processFrame cfg inp st count = (st, count) ∧
    (ObjectTracker.updateCam cfg inp st count).2.1.trackers =
      (st.trackers.map KalmanBoxTracker.predict).filter
        (fun t => decide (t.timeSinceUpdate ≤ cfg.maxAge)) := by
  constructor
  · unfold processFrame
    rw [h]
    rfl
  · unfold ObjectTracker.updateCam associate
    rw [h]
    by_cases hn : st.trackers = []
    · simp [hn, spawnAll, applyMatches]
    · simp [hn, spawnAll, applyMatches, List.length_eq_zero]

/-- Witness for `empty_detections_no_cycle`: the empty-detections input
over one live tracker with a missed cycle. -/
theorem empty_detections_no_cycle_witness :
    inpEmpty.dets = [] ∧
    (processFrame cfgDefault inpEmpty ⟨[trkW], 3⟩ 1 = (⟨[trkW], 3⟩, 1) ∧
     (ObjectTracker.updateCam cfgDefault inpEmpty ⟨[trkW], 3⟩ 1).2.1.trackers =
       (([trkW] : List KalmanBoxTracker).map KalmanBoxTracker.predict).filter
         (fun t => decide (t.timeSinceUpdate ≤ cfgDefault.maxAge))) :=
  ⟨rfl, empty_detections_no_cycle cfgDefault inpEmpty ⟨[trkW], 3⟩ 1 rfl⟩

/-- Claim C6: whenever the association step accepts no proposed match —
no trackers, no detections, or both sides nonempty with every proposed
pair rejected by the IoU threshold — every detection index and every
tracker index comes back unmatched. -/
theorem no_accepted_matches_all_unmatched (cm : Nat → Nat → ℚ)
    (proposed : List (Nat × Nat)) (thr : ℚ) (nD nT : Nat)
    (h : (associate cm proposed thr nD nT).1 = []) :
    (associate cm proposed thr nD nT).2.1 = List.range nD ∧
    (associate cm proposed thr nD nT).2.2 = List.range nT := by
  by_cases h1 : nT = 0
  · subst h1
    simp [associate]
  · by_cases h2 : nD = 0
    · subst h2
      simp [associate, h1]
    · rw [associate_main cm proposed thr nD nT h2 h1] at h ⊢
      simp only [] at h
      simp [h]

/-- Witness for `no_accepted_matches_all_unmatched`: one detection and
one tracker, the single proposed pair rejected (cost 1, threshold 0). -/
theorem no_accepted_matches_all_unmatched_witness :
    (associate (fun _ _ => (1 : ℚ)) [(0, 0)] 0 1 1).1 = [] ∧
    ((associate (fun _ _ => (1 : ℚ)) [(0, 0)] 0 1 1).2.1 = List.range 1 ∧
     (associate (fun _ _ => (1 : ℚ)) [(0, 0)] 0 1 1).2.2 = List.range 1) :=
  ⟨by simp [associate, List.filter],
   no_accepted_matches_all_unmatched (fun _ _ => (1 : ℚ)) [(0, 0)] 0 1 1
     (by simp [associate, List.filter])⟩

/-! ## Camera stream: bounded buffer and frame numbering -/

/-- One camera-stream transition never grows the buffer beyond its
capacity. -/
theorem streamStep_length_le (st : CameraStreamState) (e : CaptureEvent)
    (h : st.frameQueue.length ≤ bufferCapacity) :
    (streamStep st e).frameQueue.length ≤ bufferCapacity := by
  cases e with
  | readOk =>
    unfold streamStep
    by_cases hf : st.frameQueue.length < bufferCapacity
    · rw [if_pos hf]
      simp
      omega
    · rw [if_neg hf]
      exact h
  | readFail => exact h
  | getFrame =>
    unfold streamStep
    simp only [List.length_drop]
    omega

/-- The buffer-capacity bound is preserved along any event sequence. -/
theorem runStreamFrom_length_le (evs : List CaptureEvent)
    (st : CameraStreamState)
    (h : st.frameQueue.length ≤ bufferCapacity) :
    (runStreamFrom st evs).frameQueue.length ≤ bufferCapacity := by
  induction evs generalizing st with
  | nil => exact h
  | cons e rest ih => exact ih (streamStep st e) (streamStep_length_le st e h)

/-- Claim C7: along any capture/consume schedule the frame buffer never
holds more than 10 frames, and a successful read against a full buffer
drops the frame without blocking or changing any state — the producer
simply continues. -/
theorem buffer_bounded (evs : List CaptureEvent) (st : CameraStreamState)
    (hfull : st.frameQueue.length = bufferCapacity) :
    (runStream evs).frameQueue.length ≤ bufferCapacity ∧
    streamStep st CaptureEvent.readOk = st := by
  constructor
  · exact runStreamFrom_length_le evs initStream (by simp [initStream])
  · unfold streamStep
    rw [if_neg (by omega)]

/-- Witness for `buffer_bounded`: twelve consecutive successful reads,
and a full ten-frame buffer absorbing a read unchanged. -/
theorem buffer_bounded_witness :
    (⟨fullQueueW, 10⟩ : CameraStreamState).frameQueue.length =
      bufferCapacity ∧
    ((runStream (List.replicate 12 CaptureEvent.readOk)).frameQueue.length ≤
      bufferCapacity ∧
     streamStep ⟨fullQueueW, 10⟩ CaptureEvent.readOk = ⟨fullQueueW, 10⟩) :=
  ⟨by decide,
   buffer_bounded (List.replicate 12 CaptureEvent.readOk) ⟨fullQueueW, 10⟩
     (by decide)⟩

/-- Each camera-stream transition preserves consecutive frame
numbering. -/
theorem streamStep_consecutive (st : CameraStreamState) (e : CaptureEvent)
    (h : queueConsecutive st) : queueConsecutive (streamStep st e) := by
  obtain ⟨k, hk, hq⟩ := h
  cases e with
  | readOk =>
    have hstep : streamStep st CaptureEvent.readOk =
        if st.frameQueue.length < bufferCapacity then
          { frameQueue := st.frameQueue ++ [⟨st.frameNumber⟩],
            frameNumber := st.frameNumber + 1 }
        else st := rfl
    by_cases hf : st.frameQueue.length < bufferCapacity
    · rw [hstep, if_pos hf]
      refine ⟨k, ?_, ?_⟩
      · show k ≤ st.frameNumber + 1
        omega
      show (st.frameQueue ++ [Frame.mk st.frameNumber]).map Frame.frameNumber =
        List.range' k (st.frameNumber + 1 - k)
      rw [List.map_append, hq]
      rw [show st.frameNumber + 1 - k = (st.frameNumber - k) + 1 from by omega,
        List.range'_concat]
      rw [show k + 1 * (st.frameNumber - k) = st.frameNumber from by omega]
      rfl
    · rw [hstep, if_neg hf]
      exact ⟨k, hk, hq⟩
  | readFail => exact ⟨k, hk, hq⟩
  | getFrame =>
    rcases Nat.eq_zero_or_pos (st.frameNumber - k) with hz | hpos
    · refine ⟨st.frameNumber, le_refl _, ?_⟩
      rw [hz] at hq
      have hnil : st.frameQueue = [] := by
        cases hq' : st.frameQueue with
        | nil => rfl
        | cons f rest => rw [hq'] at hq; cases hq
      show (st.frameQueue.drop 1).map Frame.frameNumber =
        List.range' st.frameNumber (st.frameNumber - st.frameNumber)
      simp [hnil]
    · refine ⟨k + 1, ?_, ?_⟩
      · show k + 1 ≤ st.frameNumber
        omega
      show (st.frameQueue.drop 1).map Frame.frameNumber =
        List.range' (k + 1) (st.frameNumber - (k + 1))
      rw [List.map_drop, hq]
      rw [show st.frameNumber - k = (st.frameNumber - k - 1) + 1 from by omega,
        List.range'_succ]
      simp only [List.drop_succ_cons, List.drop_zero]
      rw [show st.frameNumber - (k + 1) = st.frameNumber - k - 1 from by omega]

/-- Consecutive frame numbering is preserved along any event
sequence. -/
theorem runStreamFrom_consecutive (evs : List CaptureEvent)
    (st : CameraStreamState) (h : queueConsecutive st) :
    queueConsecutive (runStreamFrom st evs) := by
  induction evs generalizing st with
  | nil => exact h
  | cons e rest ih => exact ih (streamStep st e) (streamStep_consecutive st e h)

/-- Claim C10: along any capture/consume schedule from stream start, the
buffered frames carry consecutive strictly increasing sequence numbers —
the block ending just below the next frame number, in buffer order — and
a frame dropped against a full buffer consumes no sequence number. -/
theorem frame_numbers_consecutive (evs : List CaptureEvent)
    (st : CameraStreamState)
    (hfull : st.frameQueue.length = bufferCapacity) :
    queueConsecutive (runStream evs) ∧
    (streamStep st CaptureEvent.readOk).frameNumber = st.frameNumber := by
  constructor
  · exact runStreamFrom_consecutive evs initStream
      ⟨0, le_refl _, by simp [initStream]⟩
  · unfold streamStep
    rw [if_neg (by omega)]

/-- Witness for `frame_numbers_consecutive`: a short schedule with reads
and one consume, and a full ten-frame buffer absorbing a read without
consuming a sequence number. -/
theorem frame_numbers_consecutive_witness :
    (⟨fullQueueW, 10⟩ : CameraStreamState).frameQueue.length =
      bufferCapacity ∧
    (queueConsecutive (runStream [CaptureEvent.readOk, CaptureEvent.readOk,
        CaptureEvent.getFrame, CaptureEvent.readOk]) ∧
     (streamStep ⟨fullQueueW, 10⟩ CaptureEvent.readOk).frameNumber = 10) :=
  ⟨by decide,
   frame_numbers_consecutive
     [CaptureEvent.readOk, CaptureEvent.readOk, CaptureEvent.getFrame,
       CaptureEvent.readOk] ⟨fullQueueW, 10⟩ (by decide)⟩

end SmartCCTV
